import Mathlib

/-!
Shallow embedding of src/src/process.rs, the process execution engine of a
multi-level feedback queue simulation.

Modelling conventions:
- Rust u32 fields are modelled as Nat; simulation values stay far below
  2 to the 32, so additions are not wrapped. The u32 maximum appears only
  as the sentinel constant U32_MAX.
- A Rust panic (failed assert, dispatch of a finished process, the
  unreachable print branch, or debug-mode subtraction underflow) is
  modelled by returning none, so a some result is exactly a dispatch that
  returns normally.
- The console trace lines are an observation side channel and carry no
  state, so they are omitted; the queue argument is kept but unused.
-/

/-- States of a process, mirroring enum ProcessState in process.rs. -/
inductive ProcessState where
  | Ready
  | Running
  | Blocked
  | Finished
deriving DecidableEq, Repr

/-- The process control block, mirroring struct Process in process.rs.
Rust u32 fields are modelled as Nat. -/
structure Process where
  pid : Nat
  io_interval : Nat
  io_length : Nat
  workload : Nat
  work_done : Nat
  start_time : Nat
  next_schedule_time : Nat
  turnaround_time : Nat
  response_time : Nat
  allotment : Nat
  state : ProcessState
deriving DecidableEq, Repr

/-- The sentinel used by the source for next_schedule_time once finished. -/
def U32_MAX : Nat := 4294967295

/-- Mirrors Process::new. -/
def Process.new (pid io_interval io_length workload arrival_time : Nat) : Process :=
  { pid := pid
    io_interval := io_interval
    io_length := io_length
    workload := workload
    work_done := 0
    start_time := arrival_time
    next_schedule_time := arrival_time
    turnaround_time := 0
    response_time := 0
    allotment := 0
    state := ProcessState.Ready }

/-- Mirrors Process::set_allotment. -/
def Process.set_allotment (p : Process) (allotment : Nat) : Process :=
  { p with allotment := allotment }

/-- Mirrors Process::is_blocked. -/
def Process.is_blocked (p : Process) : Bool :=
  match p.state with
  | ProcessState.Blocked => true
  | _ => false

/-- Mirrors Process::is_finished. -/
def Process.is_finished (p : Process) : Bool :=
  match p.state with
  | ProcessState.Finished => true
  | _ => false

/-- Common tail of run_from_running: the assert that run_time is positive,
the flooring update of allotment, and the status print whose match treats
the Ready state as an unreachable fatal branch. A none result models a
Rust panic. -/
def finishRun (p : Process) (run_time : Nat) : Option (Process × Nat) :=
  if run_time = 0 then none
  else
    let p2 : Process :=
      { p with allotment := if run_time < p.allotment then p.allotment - run_time else 0 }
    if p2.state = ProcessState.Ready then none
    else some (p2, run_time)

/-- The branch arithmetic of run_from_running: choice of run_time and the
mutations of the chosen branch, before the common tail. The none results
model the debug panic of at - start_time underflowing and the assert that
workload equals work_done on completion. The let bound work_before_block
is work_before_io in the source. -/
def runCore (p : Process) (quantum t : Nat) : Option (Process × Nat) :=
  let work_left := p.workload - p.work_done
  if 0 < p.io_interval then
    let work_before_block := p.io_interval - p.work_done % p.io_interval
    if work_before_block < work_left ∧ work_before_block ≤ quantum then
      some ({ p with
                work_done := p.work_done + work_before_block
                next_schedule_time := t + p.io_length
                state := ProcessState.Blocked }, work_before_block)
    else if work_left ≤ quantum then
      if t < p.start_time then none
      else if p.work_done + work_left ≠ p.workload then none
      else
        some ({ p with
                  work_done := p.work_done + work_left
                  next_schedule_time := U32_MAX
                  turnaround_time := t - p.start_time + work_left
                  state := ProcessState.Finished }, work_left)
    else
      some ({ p with
                work_done := p.work_done + quantum
                next_schedule_time := t + quantum }, quantum)
  else
    if work_left ≤ quantum then
      if t < p.start_time then none
      else if p.work_done + work_left ≠ p.workload then none
      else
        some ({ p with
                  work_done := p.work_done + work_left
                  next_schedule_time := U32_MAX
                  turnaround_time := t - p.start_time + work_left
                  state := ProcessState.Finished }, work_left)
    else
      some ({ p with
                work_done := p.work_done + quantum
                next_schedule_time := t + quantum }, quantum)

/-- Mirrors Process::run_from_running. A none result models a Rust panic:
the state assert, the positive-allotment assert, debug-mode underflow of
workload - work_done, and the panics inside runCore and finishRun. -/
def Process.run_from_running (p : Process) (quantum t queue : Nat) : Option (Process × Nat) :=
  if p.state ≠ ProcessState.Running then none
  else if p.allotment = 0 then none
  else if p.workload < p.work_done then none
  else (runCore p quantum t).bind (fun pr => finishRun pr.1 pr.2)

/-- Mirrors Process::run_from_ready. -/
def Process.run_from_ready (p : Process) (quantum t queue : Nat) : Option (Process × Nat) :=
  Process.run_from_running { p with state := ProcessState.Running } quantum t queue

/-- Mirrors Process::run_from_blocked. -/
def Process.run_from_blocked (p : Process) (quantum t queue : Nat) : Option (Process × Nat) :=
  Process.run_from_running { p with state := ProcessState.Running } quantum t queue

/-- Mirrors Process::run, the dispatch operation. The response-time latch
runs first, guarded by response_time being 0, with its assert that t is at
least start_time. Dispatching a Finished process panics, modelled as
none. -/
def Process.run (p : Process) (quantum t queue : Nat) : Option (Process × Nat) :=
  let latched : Option Process :=
    if p.response_time = 0 then
      if t < p.start_time then none
      else some { p with response_time := t - p.start_time }
    else some p
  latched.bind (fun p1 =>
    match p1.state with
    | ProcessState.Ready => p1.run_from_ready quantum t queue
    | ProcessState.Running => p1.run_from_running quantum t queue
    | ProcessState.Blocked => p1.run_from_blocked quantum t queue
    | ProcessState.Finished => none)

/-- One driver action: either the external policy layer setting the
allotment between dispatches, or one dispatch call. -/
inductive DriverCall where
  | setAllotment (a : Nat)
  | dispatch (quantum t queue : Nat)
deriving DecidableEq, Repr

/-- Runs a sequence of driver calls, collecting the consumed time returned
by each dispatch. A none result means some dispatch panicked. -/
def runTrace : Process → List DriverCall → Option (Process × List Nat)
  | p, [] => some (p, [])
  | p, DriverCall.setAllotment a :: cs => runTrace (p.set_allotment a) cs
  | p, DriverCall.dispatch q t u :: cs =>
    match p.run q t u with
    | none => none
    | some (p1, r) =>
      match runTrace p1 cs with
      | none => none
      | some (p2, rs) => some (p2, r :: rs)

/-! ### Inversion lemmas: what a successful dispatch implies -/

theorem finishRun_inv {p : Process} {c : Nat} {p2 : Process} {c2 : Nat}
    (h : finishRun p c = some (p2, c2)) :
    c2 = c ∧ 0 < c ∧ p.state ≠ ProcessState.Ready ∧
      p2 = { p with allotment := if c < p.allotment then p.allotment - c else 0 } := by
  unfold finishRun at h
  by_cases h1 : c = 0
  · simp [h1] at h
  · by_cases h2 : p.state = ProcessState.Ready
    · simp [h1, h2] at h
    · simp only [if_neg h1, h2, if_false, Option.some.injEq, Prod.mk.injEq] at h
      exact ⟨h.2.symm, Nat.pos_of_ne_zero h1, h2, h.1.symm⟩

theorem runCore_inv {p : Process} {q t : Nat} {pm : Process} {c : Nat}
    (hst : p.state = ProcessState.Running)
    (hwd : p.work_done ≤ p.workload)
    (h : runCore p q t = some (pm, c)) :
    pm.pid = p.pid ∧ pm.io_interval = p.io_interval ∧ pm.io_length = p.io_length ∧
    pm.workload = p.workload ∧ pm.start_time = p.start_time ∧
    pm.response_time = p.response_time ∧ pm.allotment = p.allotment ∧
    pm.work_done = p.work_done + c ∧ pm.work_done ≤ p.workload ∧
    pm.state ≠ ProcessState.Ready ∧
    (pm.state = ProcessState.Finished ↔ pm.work_done = p.workload) ∧
    (pm.state ≠ ProcessState.Finished → pm.turnaround_time = p.turnaround_time) := by
  unfold runCore at h
  by_cases hio : 0 < p.io_interval
  · rw [if_pos hio] at h
    by_cases hA : p.io_interval - p.work_done % p.io_interval < p.workload - p.work_done ∧
        p.io_interval - p.work_done % p.io_interval ≤ q
    · rw [if_pos hA] at h
      simp only [Option.some.injEq, Prod.mk.injEq] at h
      obtain ⟨rfl, rfl⟩ := h
      simp_all <;> omega
    · rw [if_neg hA] at h
      by_cases hB : p.workload - p.work_done ≤ q
      · rw [if_pos hB] at h
        by_cases hT : t < p.start_time
        · rw [if_pos hT] at h; exact absurd h (by simp)
        · rw [if_neg hT] at h
          by_cases hE : p.work_done + (p.workload - p.work_done) ≠ p.workload
          · rw [if_pos hE] at h; exact absurd h (by simp)
          · rw [if_neg hE] at h
            simp only [Option.some.injEq, Prod.mk.injEq] at h
            obtain ⟨rfl, rfl⟩ := h
            simp_all <;> omega
      · rw [if_neg hB] at h
        simp only [Option.some.injEq, Prod.mk.injEq] at h
        obtain ⟨rfl, rfl⟩ := h
        simp_all <;> omega
  · rw [if_neg hio] at h
    by_cases hB : p.workload - p.work_done ≤ q
    · rw [if_pos hB] at h
      by_cases hT : t < p.start_time
      · rw [if_pos hT] at h; exact absurd h (by simp)
      · rw [if_neg hT] at h
        by_cases hE : p.work_done + (p.workload - p.work_done) ≠ p.workload
        · rw [if_pos hE] at h; exact absurd h (by simp)
        · rw [if_neg hE] at h
          simp only [Option.some.injEq, Prod.mk.injEq] at h
          obtain ⟨rfl, rfl⟩ := h
          simp_all <;> omega
    · rw [if_neg hB] at h
      simp only [Option.some.injEq, Prod.mk.injEq] at h
      obtain ⟨rfl, rfl⟩ := h
      simp_all <;> omega

theorem run_eq (p : Process) (q t u : Nat) :
    p.run q t u =
      if p.response_time = 0 ∧ t < p.start_time then none
      else if p.state = ProcessState.Finished then none
      else
        Process.run_from_running
          { p with
              response_time := if p.response_time = 0 then t - p.start_time else p.response_time
              state := ProcessState.Running } q t u := by
  obtain ⟨pid, ii, il, w, wd, st, nst, tat, rt, al, s⟩ := p
  by_cases hr : rt = 0
  · by_cases ht : t < st
    · simp [Process.run, hr, ht]
    · cases s <;>
        simp [Process.run, Process.run_from_ready, Process.run_from_blocked, hr, ht]
  · cases s <;>
      simp [Process.run, Process.run_from_ready, Process.run_from_blocked, hr]

theorem rfr_inv {p : Process} {q t u : Nat} {p2 : Process} {c : Nat}
    (h : p.run_from_running q t u = some (p2, c)) :
    p.state = ProcessState.Running ∧ 0 < p.allotment ∧ p.work_done ≤ p.workload ∧ 0 < c ∧
    p2.pid = p.pid ∧ p2.io_interval = p.io_interval ∧ p2.io_length = p.io_length ∧
    p2.workload = p.workload ∧ p2.start_time = p.start_time ∧
    p2.response_time = p.response_time ∧
    p2.work_done = p.work_done + c ∧ p2.work_done ≤ p.workload ∧
    p2.allotment = (if c < p.allotment then p.allotment - c else 0) ∧
    (p2.state = ProcessState.Finished ↔ p2.work_done = p.workload) ∧
    (p2.state ≠ ProcessState.Finished → p2.turnaround_time = p.turnaround_time) := by
  unfold Process.run_from_running at h
  by_cases h1 : p.state = ProcessState.Running
  · rw [if_neg (not_not_intro h1)] at h
    by_cases h2 : p.allotment = 0
    · simp [h2] at h
    · rw [if_neg h2] at h
      by_cases h3 : p.workload < p.work_done
      · simp [h3] at h
      · rw [if_neg h3] at h
        push_neg at h3
        cases hrc : runCore p q t with
        | none => simp [hrc] at h
        | some pr =>
          obtain ⟨pm, cm⟩ := pr
          rw [hrc, Option.some_bind] at h
          obtain ⟨rfl, hcpos, hnready, rfl⟩ := finishRun_inv h
          obtain ⟨e1, e2, e3, e4, e5, e6, e7, e8, e9, e10, e11, e12⟩ :=
            runCore_inv h1 h3 hrc
          refine ⟨h1, Nat.pos_of_ne_zero h2, h3, hcpos, by simp [e1], by simp [e2],
            by simp [e3], by simp [e4], by simp [e5], by simp [e6], by simp [e8],
            by simpa using e9, by simp [e7], by simpa using e11, by simpa using e12⟩
  · simp [h1] at h

theorem run_inv {p : Process} {q t u : Nat} {p2 : Process} {c : Nat}
    (h : p.run q t u = some (p2, c)) :
    p.state ≠ ProcessState.Finished ∧ 0 < c ∧ 0 < p.allotment ∧
    (p.response_time = 0 → p.start_time ≤ t) ∧
    p2.pid = p.pid ∧ p2.io_interval = p.io_interval ∧ p2.io_length = p.io_length ∧
    p2.workload = p.workload ∧ p2.start_time = p.start_time ∧
    p2.response_time = (if p.response_time = 0 then t - p.start_time else p.response_time) ∧
    p2.work_done = p.work_done + c ∧ p.work_done ≤ p.workload ∧ p2.work_done ≤ p.workload ∧
    p2.allotment = (if c < p.allotment then p.allotment - c else 0) ∧
    (p2.state = ProcessState.Finished ↔ p2.work_done = p.workload) ∧
    (p2.state ≠ ProcessState.Finished → p2.turnaround_time = p.turnaround_time) := by
  rw [run_eq] at h
  by_cases h1 : p.response_time = 0 ∧ t < p.start_time
  · simp [h1] at h
  · rw [if_neg h1] at h
    by_cases h2 : p.state = ProcessState.Finished
    · simp [h1, h2] at h
    · rw [if_neg h2] at h
      obtain ⟨f1, f2, f3, f4, f5, f6, f7, f8, f9, f10, f11, f12, f13, f14, f15⟩ :=
        rfr_inv h
      simp only at f2 f3 f5 f6 f7 f8 f9 f10 f11 f12 f13 f14 f15
      refine ⟨h2, f4, f2, ?_, f5, f6, f7, f8, f9, f10, f11, f3, f12, f13, f14, f15⟩
      intro hrz
      by_contra hlt
      exact h1 ⟨hrz, Nat.lt_of_not_le hlt⟩

theorem runTrace_inv {cs : List DriverCall} {p p2 : Process} {rs : List Nat} :
    runTrace p cs = some (p2, rs) →
    p2.workload = p.workload ∧ p2.work_done = p.work_done + rs.sum ∧
    p2.start_time = p.start_time ∧
    (p.work_done ≤ p.workload → p2.work_done ≤ p.workload) ∧
    ((p.state = ProcessState.Finished ↔ p.work_done = p.workload) →
      (p2.state = ProcessState.Finished ↔ p2.work_done = p2.workload)) ∧
    ((p.state = ProcessState.Finished → p.work_done = p.workload) →
      (p2.state = ProcessState.Finished → p2.work_done = p2.workload)) := by
  induction cs generalizing p rs with
  | nil =>
    intro h
    simp only [runTrace, Option.some.injEq, Prod.mk.injEq] at h
    obtain ⟨rfl, rfl⟩ := h
    simp
  | cons c cs ih =>
    intro h
    cases c with
    | setAllotment a =>
      simp only [runTrace] at h
      obtain ⟨g1, g2, g3, g4, g5, g6⟩ := ih h
      simp only [Process.set_allotment] at g1 g2 g3 g4 g5 g6
      exact ⟨g1, g2, g3, g4, g5, g6⟩
    | dispatch q t u =>
      cases hr : p.run q t u with
      | none => simp [runTrace, hr] at h
      | some pr =>
        obtain ⟨p1, r⟩ := pr
        cases ht : runTrace p1 cs with
        | none => simp [runTrace, hr, ht] at h
        | some pr2 =>
          obtain ⟨p2x, rsx⟩ := pr2
          simp only [runTrace, hr, ht, Option.some.injEq, Prod.mk.injEq] at h
          obtain ⟨rfl, rfl⟩ := h
          obtain ⟨g1, g2, g3, g4, g5, g6⟩ := ih ht
          obtain ⟨_, _, _, _, _, _, _, w1, s1, _, wd1, _, b1, _, iff1, _⟩ := run_inv hr
          rw [w1] at g1
          rw [s1] at g3
          refine ⟨g1, ?_, g3, ?_, ?_, ?_⟩
          · rw [g2, wd1, List.sum_cons]
            omega
          · intro _
            have hb : p2x.work_done ≤ p1.workload := g4 (by rw [w1]; exact b1)
            rw [w1] at hb
            exact hb
          · intro _
            exact g5 (by rw [w1]; exact iff1)
          · intro _
            exact g6 (fun hf => by rw [w1]; exact iff1.mp hf)

theorem run_finished_none {p : Process} (h : p.state = ProcessState.Finished)
    (q t u : Nat) : p.run q t u = none := by
  rw [run_eq]
  by_cases h1 : p.response_time = 0 ∧ t < p.start_time
  · rw [if_pos h1]
  · rw [if_neg h1, if_pos h]

/-- C3: dispatching a process in state Finished always fails fatally (the
model returns none, mirroring the panic) and never returns a consumed
time. -/
theorem finished_dispatch_fatal (p : Process) (q t u : Nat)
    (h : p.state = ProcessState.Finished) : p.run q t u = none :=
  run_finished_none h q t u

/-- C3 witness. -/
theorem finished_dispatch_fatal_w :
    ({ Process.new 1 0 0 5 0 with state := ProcessState.Finished }).state
        = ProcessState.Finished ∧
      ({ Process.new 1 0 0 5 0 with state := ProcessState.Finished }).run 4 9 2 = none :=
  ⟨by decide,
    finished_dispatch_fatal { Process.new 1 0 0 5 0 with state := ProcessState.Finished }
      4 9 2 (by decide)⟩

/-- C9: any dispatch of a process whose allotment is 0 aborts (returns
none), whatever the quantum and time; in particular a process freshly
constructed by new, whose allotment starts at 0, cannot be dispatched
before set_allotment is called with a positive value. -/
theorem zero_allotment_dispatch_aborts (p : Process) (q t u : Nat)
    (h : p.allotment = 0) : p.run q t u = none := by
  cases hr : p.run q t u with
  | none => rfl
  | some pr =>
    obtain ⟨p2, c⟩ := pr
    obtain ⟨-, -, hpos, -⟩ := run_inv hr
    rw [h] at hpos
    exact absurd hpos (by simp)

/-- C9 witness: a freshly constructed process. -/
theorem zero_allotment_dispatch_aborts_w :
    (Process.new 1 2 3 4 5).allotment = 0 ∧ (Process.new 1 2 3 4 5).run 10 7 0 = none :=
  ⟨by decide, zero_allotment_dispatch_aborts (Process.new 1 2 3 4 5) 10 7 0 (by decide)⟩

/-- C7: every dispatch that returns consumed time c has c strictly
positive, and updates allotment to max 0 (allotment - c), so allotment
never goes negative and bottoms out at 0 by flooring. -/
theorem consumed_pos_allotment_floor (p : Process) (q t u : Nat) (p2 : Process) (c : Nat)
    (h : p.run q t u = some (p2, c)) :
    0 < c ∧ (p2.allotment : Int) = max ((p.allotment : Int) - (c : Int)) 0 := by
  obtain ⟨-, hc, -, -, -, -, -, -, -, -, -, -, -, hal, -, -⟩ := run_inv h
  refine ⟨hc, ?_⟩
  rw [hal]
  by_cases hlt : c < p.allotment
  · rw [if_pos hlt]
    omega
  · rw [if_neg hlt]
    omega

/-- C7 witness. -/
theorem consumed_pos_allotment_floor_w :
    0 < 5 ∧ ((0 : Int) = max ((3 : Int) - (5 : Int)) 0) :=
  consumed_pos_allotment_floor ((Process.new 1 0 0 5 0).set_allotment 3) 10 0 0
    { pid := 1, io_interval := 0, io_length := 0, workload := 5, work_done := 5,
      start_time := 0, next_schedule_time := U32_MAX, turnaround_time := 5,
      response_time := 0, allotment := 0, state := ProcessState.Finished } 5 (by decide)

/-- C1: the response-time latch is guarded by response_time being 0, not by
a has-been-set flag. When the first dispatch happens exactly at start_time
the latched value is 0, and a later dispatch overwrites it: here the first
dispatch at time 5 of a process arrived at 5 latches 0, and the second
dispatch at time 8 rewrites response_time to 3, contradicting write-once
latching. -/
theorem response_time_relatch_bug :
    (runTrace (Process.new 1 0 0 10 5)
        [DriverCall.setAllotment 100, DriverCall.dispatch 3 5 0]).map
        (fun pr => pr.1.response_time) = some 0 ∧
    (runTrace (Process.new 1 0 0 10 5)
        [DriverCall.setAllotment 100, DriverCall.dispatch 3 5 0,
         DriverCall.dispatch 3 8 0]).map
        (fun pr => pr.1.response_time) = some 3 := by
  decide

/-- C2: over any driver-call sequence from a freshly constructed process,
if the final state is Finished then the consumed times returned by the
dispatches sum to exactly the workload. -/
theorem consumed_sum_eq_workload (pid ii il w a0 : Nat) (calls : List DriverCall)
    (pf : Process) (rs : List Nat)
    (h : runTrace (Process.new pid ii il w a0) calls = some (pf, rs))
    (hf : pf.state = ProcessState.Finished) : rs.sum = w := by
  obtain ⟨g1, g2, -, -, -, g6⟩ := runTrace_inv h
  have hwd : pf.work_done = pf.workload :=
    g6 (fun hx => by simp [Process.new] at hx) hf
  simp only [Process.new] at g1 g2
  omega

/-- C2 witness: scenario A, io_interval 0, workload 37, quantum 10. -/
theorem consumed_sum_eq_workload_w : [10, 10, 10, 7].sum = 37 :=
  consumed_sum_eq_workload 1 0 0 37 0
    [DriverCall.setAllotment 100, DriverCall.dispatch 10 0 0, DriverCall.dispatch 10 10 0,
     DriverCall.dispatch 10 20 0, DriverCall.dispatch 10 30 0]
    { pid := 1, io_interval := 0, io_length := 0, workload := 37, work_done := 37,
      start_time := 0, next_schedule_time := U32_MAX, turnaround_time := 37,
      response_time := 10, allotment := 63, state := ProcessState.Finished }
    [10, 10, 10, 7] (by decide) (by decide)

/-- C6: each successful dispatch leaves work_done equal or larger and never
pushes it beyond workload, and along any driver-call sequence from a fresh
process work_done stays at most workload. -/
theorem work_done_monotone_bounded :
    (∀ (p : Process) (q t u : Nat) (p2 : Process) (c : Nat),
        p.run q t u = some (p2, c) →
        p.work_done ≤ p2.work_done ∧ p2.work_done ≤ p.workload) ∧
    (∀ (pid ii il w a0 : Nat) (calls : List DriverCall) (p2 : Process) (rs : List Nat),
        runTrace (Process.new pid ii il w a0) calls = some (p2, rs) →
        p2.work_done ≤ w) := by
  constructor
  · intro p q t u p2 c h
    obtain ⟨-, -, -, -, -, -, -, -, -, -, hwd, -, hb, -, -, -⟩ := run_inv h
    exact ⟨by omega, hb⟩
  · intro pid ii il w a0 calls p2 rs h
    obtain ⟨-, -, -, g4, -, -⟩ := runTrace_inv h
    have hb := g4 (by simp [Process.new])
    simpa [Process.new] using hb

/-- C6 witness. -/
theorem work_done_monotone_bounded_w : (0 ≤ 2 ∧ 2 ≤ 5) ∧ 37 ≤ 37 :=
  ⟨work_done_monotone_bounded.1 ((Process.new 1 0 0 5 0).set_allotment 9) 2 0 0
      { pid := 1, io_interval := 0, io_length := 0, workload := 5, work_done := 2,
        start_time := 0, next_schedule_time := 2, turnaround_time := 0,
        response_time := 0, allotment := 7, state := ProcessState.Running } 2 (by decide),
    work_done_monotone_bounded.2 1 0 0 37 0
      [DriverCall.setAllotment 100, DriverCall.dispatch 10 0 0, DriverCall.dispatch 10 10 0,
       DriverCall.dispatch 10 20 0, DriverCall.dispatch 10 30 0]
      { pid := 1, io_interval := 0, io_length := 0, workload := 37, work_done := 37,
        start_time := 0, next_schedule_time := U32_MAX, turnaround_time := 37,
        response_time := 10, allotment := 63, state := ProcessState.Finished }
      [10, 10, 10, 7] (by decide)⟩

/-- C10 counterexample to the claim as stated: with workload 0 the freshly
constructed process itself is reachable with the empty call sequence, has
work_done equal to workload, and is not Finished. -/
theorem work_done_iff_finished_cex :
    runTrace (Process.new 1 1 1 0 0) [] = some (Process.new 1 1 1 0 0, []) ∧
    (Process.new 1 1 1 0 0).work_done = (Process.new 1 1 1 0 0).workload ∧
    (Process.new 1 1 1 0 0).state ≠ ProcessState.Finished := by
  decide

/-- C10 amended: for positive workload, in every state reachable from new
work_done equals workload exactly when the state is Finished, and
work_done stays strictly below workload in the other states. -/
theorem work_done_eq_workload_iff_finished (pid ii il w a0 : Nat) (hw : 0 < w)
    (calls : List DriverCall) (p2 : Process) (rs : List Nat)
    (h : runTrace (Process.new pid ii il w a0) calls = some (p2, rs)) :
    (p2.work_done = w ↔ p2.state = ProcessState.Finished) ∧
    (p2.state ≠ ProcessState.Finished → p2.work_done < w) := by
  obtain ⟨g1, -, -, g4, g5, -⟩ := runTrace_inv h
  have hiff := g5 (by simp [Process.new]; omega)
  have hb := g4 (by simp [Process.new])
  simp only [Process.new] at g1 hb
  rw [g1] at hiff
  refine ⟨hiff.symm, fun hne => ?_⟩
  have : ¬ p2.work_done = w := fun he => hne (hiff.mpr he)
  omega

/-- C10 witness. -/
theorem work_done_eq_workload_iff_finished_w :
    ((3 : Nat) = 5 ↔ ProcessState.Running = ProcessState.Finished) ∧
    (ProcessState.Running ≠ ProcessState.Finished → (3 : Nat) < 5) :=
  work_done_eq_workload_iff_finished 1 0 0 5 0 (by decide)
    [DriverCall.setAllotment 9, DriverCall.dispatch 3 0 0]
    { pid := 1, io_interval := 0, io_length := 0, workload := 5, work_done := 3,
      start_time := 0, next_schedule_time := 3, turnaround_time := 0,
      response_time := 0, allotment := 6, state := ProcessState.Running }
    [3] (by decide)

/-- C4: when io_interval is positive and the distance to the next I/O
boundary is both less than the remaining work and at most the quantum, a
dispatch of a non-Finished process consumes exactly that distance, adds it
to work_done, schedules the I/O wakeup at t + io_length, and moves to
Blocked. -/
theorem io_boundary_dispatch (p : Process) (q t u : Nat)
    (hfin : p.state ≠ ProcessState.Finished)
    (hal : 0 < p.allotment)
    (hresp : p.response_time = 0 → p.start_time ≤ t)
    (hio : 0 < p.io_interval)
    (hA : p.io_interval - p.work_done % p.io_interval < p.workload - p.work_done)
    (hq : p.io_interval - p.work_done % p.io_interval ≤ q) :
    (p.run q t u).map (fun pr => (pr.2, pr.1.work_done, pr.1.next_schedule_time, pr.1.state))
      = some (p.io_interval - p.work_done % p.io_interval,
              p.work_done + (p.io_interval - p.work_done % p.io_interval),
              t + p.io_length, ProcessState.Blocked) := by
  have hng : ¬ (p.response_time = 0 ∧ t < p.start_time) := by
    rintro ⟨ha, hb⟩
    exact absurd (hresp ha) (by omega)
  have hmod := Nat.mod_lt p.work_done hio
  have hwd : ¬ p.workload < p.work_done := by omega
  have hne : p.io_interval - p.work_done % p.io_interval ≠ 0 := by omega
  rw [run_eq, if_neg hng, if_neg hfin]
  simp [Process.run_from_running, runCore, finishRun, hal.ne', hwd, hio, hA, hq, hne]

/-- C8: when neither the I/O boundary nor completion is reached within the
quantum, the dispatch consumes the full quantum, adds it to work_done,
sets next_schedule_time to t + quantum, and leaves the state Running. -/
theorem quantum_exhaustion_dispatch (p : Process) (q t u : Nat)
    (hfin : p.state ≠ ProcessState.Finished)
    (hal : 0 < p.allotment)
    (hresp : p.response_time = 0 → p.start_time ≤ t)
    (hq : 0 < q)
    (hleft : q < p.workload - p.work_done)
    (hio : 0 < p.io_interval →
      ¬ (p.io_interval - p.work_done % p.io_interval < p.workload - p.work_done ∧
         p.io_interval - p.work_done % p.io_interval ≤ q)) :
    (p.run q t u).map (fun pr => (pr.2, pr.1.work_done, pr.1.next_schedule_time, pr.1.state))
      = some (q, p.work_done + q, t + q, ProcessState.Running) := by
  have hng : ¬ (p.response_time = 0 ∧ t < p.start_time) := by
    rintro ⟨ha, hb⟩
    exact absurd (hresp ha) (by omega)
  have hwl : ¬ p.workload < p.work_done := by omega
  have hnb : ¬ (p.workload - p.work_done ≤ q) := by omega
  have hnb2 : ¬ p.workload ≤ q + p.work_done := by omega
  rw [run_eq, if_neg hng, if_neg hfin]
  by_cases hio0 : 0 < p.io_interval
  · have hnA := hio hio0
    have hnA2 : ¬ (p.io_interval - p.work_done % p.io_interval < p.workload - p.work_done ∧
        p.io_interval ≤ q + p.work_done % p.io_interval) := by omega
    simp [Process.run_from_running, runCore, finishRun, hal.ne', hwl, hio0, hnA, hnA2,
      hnb, hnb2, hq.ne']
  · simp [Process.run_from_running, runCore, finishRun, hal.ne', hwl, hio0, hnb, hnb2, hq.ne']

/-- C8 witness. -/
theorem quantum_exhaustion_dispatch_w :
    (((Process.new 3 0 0 9 0).set_allotment 4).run 2 1 0).map
        (fun pr => (pr.2, pr.1.work_done, pr.1.next_schedule_time, pr.1.state))
      = some (2, 2, 3, ProcessState.Running) :=
  quantum_exhaustion_dispatch ((Process.new 3 0 0 9 0).set_allotment 4) 2 1 0
    (by decide) (by decide) (by decide) (by decide) (by decide) (by decide)

/-- C4 witness: scenario B with dispatch time 7. -/
theorem io_boundary_dispatch_w :
    (((Process.new 2 5 3 12 0).set_allotment 100).run 10 7 0).map
        (fun pr => (pr.2, pr.1.work_done, pr.1.next_schedule_time, pr.1.state))
      = some (5, 5, 10, ProcessState.Blocked) :=
  io_boundary_dispatch ((Process.new 2 5 3 12 0).set_allotment 100) 10 7 0
    (by decide) (by decide) (by decide) (by decide) (by decide) (by decide)

/-- C5: the dispatch that completes the workload returns the remaining
work, latches turnaround_time to t - start_time + consumed, makes
work_done equal workload, sets next_schedule_time to the U32_MAX sentinel,
and moves to Finished; afterwards every dispatch fails, and no dispatch
that does not finish the process ever changes turnaround_time. -/
theorem turnaround_latch_at_finish (p : Process) (q t u : Nat)
    (hfin : p.state ≠ ProcessState.Finished)
    (hal : 0 < p.allotment)
    (hst : p.start_time ≤ t)
    (hwd : p.work_done < p.workload)
    (hleft : p.workload - p.work_done ≤ q)
    (hio : 0 < p.io_interval →
      ¬ (p.io_interval - p.work_done % p.io_interval < p.workload - p.work_done ∧
         p.io_interval - p.work_done % p.io_interval ≤ q)) :
    ((p.run q t u).map
        (fun pr => (pr.2, pr.1.turnaround_time, pr.1.work_done, pr.1.next_schedule_time,
                    pr.1.state))
      = some (p.workload - p.work_done, t - p.start_time + (p.workload - p.work_done),
              p.workload, U32_MAX, ProcessState.Finished)) ∧
    (∀ (p2 : Process) (c : Nat), p.run q t u = some (p2, c) →
      ∀ (q2 t2 u2 : Nat), p2.run q2 t2 u2 = none) ∧
    (∀ (x : Process) (q3 t3 u3 : Nat) (x2 : Process) (c3 : Nat),
      x.run q3 t3 u3 = some (x2, c3) → x2.state ≠ ProcessState.Finished →
      x2.turnaround_time = x.turnaround_time) := by
  have hmap : (p.run q t u).map
      (fun pr => (pr.2, pr.1.turnaround_time, pr.1.work_done, pr.1.next_schedule_time,
                  pr.1.state))
      = some (p.workload - p.work_done, t - p.start_time + (p.workload - p.work_done),
              p.workload, U32_MAX, ProcessState.Finished) := by
    have hng : ¬ (p.response_time = 0 ∧ t < p.start_time) := by
      rintro ⟨ha, hb⟩
      omega
    have hwl : ¬ p.workload < p.work_done := by omega
    have hT : ¬ t < p.start_time := by omega
    have hE : ¬ (p.work_done + (p.workload - p.work_done) ≠ p.workload) := by omega
    have hne : p.workload - p.work_done ≠ 0 := by omega
    have hleft2 : p.workload ≤ q + p.work_done := by omega
    rw [run_eq, if_neg hng, if_neg hfin]
    by_cases hio0 : 0 < p.io_interval
    · have hnA := hio hio0
      have hnA2 : ¬ (p.io_interval - p.work_done % p.io_interval < p.workload - p.work_done ∧
          p.io_interval ≤ q + p.work_done % p.io_interval) := by omega
      simp [Process.run_from_running, runCore, finishRun, hal.ne', hwl, hio0, hnA, hnA2,
        hleft, hleft2, hT, hE, hne]
      omega
    · simp [Process.run_from_running, runCore, finishRun, hal.ne', hwl, hio0,
        hleft, hleft2, hT, hE, hne]
      omega
  refine ⟨hmap, ?_, ?_⟩
  · intro p2 c hrun q2 t2 u2
    rw [hrun] at hmap
    simp only [Option.map_some', Option.some.injEq, Prod.mk.injEq] at hmap
    exact run_finished_none hmap.2.2.2.2 q2 t2 u2
  · intro x q3 t3 u3 x2 c3 hx hnf
    obtain ⟨-, -, -, -, -, -, -, -, -, -, -, -, -, -, -, hturn⟩ := run_inv hx
    exact hturn hnf

/-- C5 witness: a Running process with io_interval 5 at work_done 10 of 12
completes within a quantum of 3 at time 20; the same instance shows that
dispatching the finished result fails and that a non-finishing dispatch
leaves turnaround_time unchanged. -/
theorem turnaround_latch_at_finish_w :
    ((({ pid := 4, io_interval := 5, io_length := 3, workload := 12, work_done := 10,
         start_time := 0, next_schedule_time := 0, turnaround_time := 0,
         response_time := 2, allotment := 7,
         state := ProcessState.Running } : Process).run 3 20 0).map
        (fun pr => (pr.2, pr.1.turnaround_time, pr.1.work_done, pr.1.next_schedule_time,
                    pr.1.state))
      = some (2, 22, 12, U32_MAX, ProcessState.Finished)) ∧
    ({ pid := 4, io_interval := 5, io_length := 3, workload := 12, work_done := 12,
       start_time := 0, next_schedule_time := U32_MAX, turnaround_time := 22,
       response_time := 2, allotment := 5,
       state := ProcessState.Finished } : Process).run 1 30 0 = none ∧
    (0 : Nat) = 0 := by
  have T := turnaround_latch_at_finish
    { pid := 4, io_interval := 5, io_length := 3, workload := 12, work_done := 10,
      start_time := 0, next_schedule_time := 0, turnaround_time := 0,
      response_time := 2, allotment := 7, state := ProcessState.Running } 3 20 0
    (by decide) (by decide) (by decide) (by decide) (by decide) (by decide)
  refine ⟨T.1, ?_, ?_⟩
  · exact T.2.1
      { pid := 4, io_interval := 5, io_length := 3, workload := 12, work_done := 12,
        start_time := 0, next_schedule_time := U32_MAX, turnaround_time := 22,
        response_time := 2, allotment := 5, state := ProcessState.Finished } 2
      (by decide) 1 30 0
  · exact T.2.2 ((Process.new 3 0 0 9 0).set_allotment 4) 2 1 0
      { pid := 3, io_interval := 0, io_length := 0, workload := 9, work_done := 2,
        start_time := 0, next_schedule_time := 3, turnaround_time := 0,
        response_time := 1, allotment := 2, state := ProcessState.Running } 2
      (by decide) (by decide)
